import Mathlib

/-!
Shallow embedding of `src/services/python-ml/main.py`, the FastAPI
"E-Code Python ML Service". Pure decision logic (estimator selection,
code metrics, data cleaning) is translated to executable Lean functions;
the stateful parts (the three module-level dictionaries and the handlers
that mutate them) are modelled by explicit state passing and a step
function over an operation type that enumerates every mutation site of
the source file. Numeric model fitting, sentiment scoring and the AST
parser itself are third-party library calls (sklearn, textblob, `ast`)
and are represented by their interface: the parse result is a tree
handed to the analyzer, the fitted model by the record of decisions the
service itself makes about it.
-/

namespace ECodeML

/-! ### JSON / pandas cell values

A cell of a request's JSON rows or of a dataframe: a string, a number, or
null/NaN (pandas represents a missing value as NaN; JSON null becomes None
and then NaN in a numeric column). Numbers are modelled as rationals. -/

inductive PyVal where
  | str (s : String)
  | num (q : Rat)
  | null
deriving DecidableEq

/-- Python `isinstance(v, str)`. -/
def PyVal.isStr : PyVal → Bool
  | .str _ => true
  | _ => false

/-- Python `str(v)` as pandas `astype(str)` renders cells: strings unchanged,
numbers printed, `None` printed as "None". -/
def PyVal.pyStr : PyVal → String
  | .str s => s
  | .num q => toString q
  | .null => "None"

/-! ### Exceptions and the blanket catch (main.py lines 411-436, 438-475)

`fastapi.HTTPException` is a subclass of `Exception`, so the handlers'
`except Exception as e: raise HTTPException(status_code=500, detail=str(e))`
catches an `HTTPException` raised inside the `try` body as well.
`str` of a starlette/fastapi `HTTPException` is `f"{status_code}: {detail}"`;
`str` of an ordinary exception is its message. -/

inductive PyException where
  | httpExc (status : Nat) (detail : String)
  | runtimeExc (msg : String)
deriving DecidableEq

/-- Python `str(e)` on the exceptions we model. -/
def PyException.text : PyException → String
  | .httpExc status detail => toString status ++ ": " ++ detail
  | .runtimeExc msg => msg

/-- The `try: ... except Exception as e: logger.error(...); raise
HTTPException(status_code=500, detail=str(e))` wrapper that every POST
handler of main.py puts around its body. Any exception escaping the body —
including an `HTTPException(400)` the body itself raised — is re-raised as
a 500 whose detail is `str(e)`. -/
def blanketCatch {α : Type} (body : Except PyException α) : Except PyException α :=
  match body with
  | .ok a => .ok a
  | .error e => .error (.httpExc 500 e.text)

/-! ### Python dictionaries as association lists

`d[k] = v` inserts or overwrites; nothing in main.py ever deletes, pops or
clears an entry of the three module-level dictionaries. -/

def dictGet {β : Type} (m : List (String × β)) (k : String) : Option β :=
  (m.find? (fun p => p.1 == k)).map (·.2)

def dictSet {β : Type} (m : List (String × β)) (k : String) (v : β) : List (String × β) :=
  (k, v) :: m.filter (fun p => p.1 != k)

/-! ### Training-job records (main.py lines 463, 484-490, 495-500) -/

/-- The dictionary value stored in `training_jobs`: line 463 stores
`{"status": "training", "start_time": ...}`, the background task overwrites
it with the completed record (lines 484-490) or the failed record (lines
495-500). Fields absent from a given dict literal are `none`. Timestamps
(`datetime.now().isoformat()`) are opaque strings. -/
structure JobRecord where
  status : String
  start_time : String
  end_time : Option String := Option.none
  metrics : Option String := Option.none
  model_type : Option String := Option.none
  error : Option String := Option.none
deriving DecidableEq

/-! ### Estimator selection (MLService, main.py lines 87-149) -/

/-- The sklearn estimator classes imported at lines 25-26. `LinearRegression`
is imported but never constructed by `train_model`. -/
inductive Estimator where
  | logisticRegression
  | randomForestClassifier
  | randomForestRegressor
  | linearRegression
deriving DecidableEq

/-- `MLService.auto_detect_problem_type` (lines 94-98):
`if isinstance(y[0], str) or len(np.unique(y)) < 10: return "classification"`,
else `"regression"`. An empty `y` would raise IndexError at `y[0]`; the
handler guarantees `y` nonempty (it rejects empty data with a 400), so the
`getD` default is never reached on the code's inputs. -/
def auto_detect_problem_type (y : List PyVal) : String :=
  if (y.getD 0 PyVal.null).isStr || y.dedup.length < 10 then "classification"
  else "regression"

/-- The estimator choice of `train_model` (lines 116-122): classification
with `len(np.unique(y)) == 2` gets `LogisticRegression(random_state=42)`,
other classification gets `RandomForestClassifier(random_state=42)`, and
everything else gets `RandomForestRegressor(random_state=42)`. -/
def chooseEstimator (model_type : String) (nUnique : Nat) : Estimator :=
  if model_type = "classification" then
    if nUnique = 2 then .logisticRegression else .randomForestClassifier
  else .randomForestRegressor

/-- The metric keys of the dictionary built at lines 130-141: accuracy plus a
classification report for classification, MSE and RMSE for the rest. -/
def metricKeys (model_type : String) : List String :=
  if model_type = "classification" then ["accuracy", "classification_report"]
  else ["mse", "rmse"]

/-- What `MLService.train_model` (lines 100-149) decides by itself, as opposed
to what it delegates to sklearn: the resolved problem type, the estimator
class, the metric keys of the returned dictionary, and the hard-coded
arguments of `train_test_split(X, y, test_size=0.2, random_state=42)`
(lines 106-108). The fitted coefficients and metric values are sklearn's
output and are outside the embedding. -/
structure TrainOutcome where
  model_type : String
  estimator : Estimator
  metric_keys : List String
  test_size : Rat
  random_state : Nat
deriving DecidableEq

/-- `MLService.train_model` (lines 100-149), restricted to its own decisions
(see `TrainOutcome`). -/
def train_model (y : List PyVal) (model_type : String) : TrainOutcome :=
  let mt := if model_type = "auto" then auto_detect_problem_type y else model_type
  { model_type := mt
    estimator := chooseEstimator mt y.dedup.length
    metric_keys := metricKeys mt
    test_size := 1 / 5
    random_state := 42 }

/-! ### The Python parse tree (CodeAnalyzer, main.py lines 151-297)

`ast.parse` is the standard library's parser; the analyzer only inspects
node kinds and a few attributes, so a parse tree is modelled as a rose tree
of tagged nodes. Per Python's grammar an `elif` arm is not a node kind of
its own: it is parsed as a nested `ast.If` in the outer `If`'s `orelse`
list, so it appears here as a `kIf` child. `ast.ExceptHandler` and
`ast.With` are node kinds of their own and are carried so that the
complexity count can be seen to ignore them. -/

inductive PyNodeKind where
  | kIf
  | kWhile
  | kFor
  | kTry
  | kLambda
  | kWith
  | kExceptHandler
  | kFunctionDef (name : String) (args : List String) (line : Nat) (docstring : Option String)
  | kClassDef (name : String) (line : Nat) (docstring : Option String)
  | kImport (names : List String)
  | kImportFrom (module : Option String) (names : List String)
  | kModule
  | kOther

inductive PyTree where
  | node (kind : PyNodeKind) (children : List PyTree)

def PyTree.kindOf : PyTree → PyNodeKind
  | .node k _ => k

def PyTree.children : PyTree → List PyTree
  | .node _ cs => cs

/-- `ast.walk(tree)`: every node of the tree, the root included. The code
enumerates breadth-first; the analyzer uses only which nodes occur (counts
and per-node attributes), never their order, so the enumeration order is
immaterial and a depth-first enumeration is used. -/
def PyTree.walk : PyTree → List PyTree
  | .node k cs => .node k cs :: (cs.attach.map (fun c => PyTree.walk c.1)).flatten
decreasing_by
  have := List.sizeOf_lt_of_mem c.2
  simp only [PyTree.node.sizeOf_spec]
  omega

/-- The running count of `_calculate_complexity`'s loop body (lines 191-195):
`if isinstance(node, (ast.If, ast.While, ast.For, ast.Try)): complexity += 1`
`elif isinstance(node, ast.Lambda): complexity += 1`. -/
def complexityStep (c : Nat) (t : PyTree) : Nat :=
  match t.kindOf with
  | .kIf | .kWhile | .kFor | .kTry => c + 1
  | .kLambda => c + 1
  | _ => c

/-- `CodeAnalyzer._calculate_complexity` (lines 188-196): base complexity 1,
then one pass over `ast.walk(tree)` adding 1 per If/While/For/Try/Lambda
node. (The `complexity_weights` dictionary built in `__init__` at lines
155-158 is dead: nothing reads it.) -/
def _calculate_complexity (tree : PyTree) : Nat :=
  tree.walk.foldl complexityStep 1

/-- Whether a node kind is one of the five the complexity loop counts.
Stated independently of the loop for the claim about what the count equals. -/
def isBranchKind : PyNodeKind → Bool
  | .kIf => true
  | .kWhile => true
  | .kFor => true
  | .kTry => true
  | .kLambda => true
  | _ => false

/-- The number of If/While/For/Try/Lambda nodes in a tree, by structural
recursion (the claim's "number of such nodes in the tree"). -/
def PyTree.branchCount : PyTree → Nat
  | .node k cs =>
    (if isBranchKind k then 1 else 0) + (cs.attach.map (fun c => PyTree.branchCount c.1)).sum
decreasing_by
  have := List.sizeOf_lt_of_mem c.2
  simp only [PyTree.node.sizeOf_spec]
  omega

/-- The function metadata `_extract_functions` (lines 198-209) collects from
each `ast.FunctionDef` node. -/
structure FunctionInfo where
  name : String
  args : List String
  line : Nat
  docstring : Option String
deriving DecidableEq

/-- `CodeAnalyzer._extract_functions` (lines 198-209). -/
def _extract_functions (tree : PyTree) : List FunctionInfo :=
  tree.walk.filterMap fun t =>
    match t.kindOf with
    | .kFunctionDef name args line doc => Option.some ⟨name, args, line, doc⟩
    | _ => Option.none

/-- The class metadata `_extract_classes` (lines 211-227) collects: the
methods are the names of the `FunctionDef` items directly in the class body. -/
structure ClassInfo where
  name : String
  methods : List String
  line : Nat
  docstring : Option String
deriving DecidableEq

/-- `CodeAnalyzer._extract_classes` (lines 211-227). -/
def _extract_classes (tree : PyTree) : List ClassInfo :=
  tree.walk.filterMap fun t =>
    match t.kindOf with
    | .kClassDef name line doc =>
      Option.some ⟨name,
        t.children.filterMap (fun item =>
          match item.kindOf with
          | .kFunctionDef n _ _ _ => Option.some n
          | _ => Option.none),
        line, doc⟩
    | _ => Option.none

/-- `CodeAnalyzer._extract_imports` (lines 229-240): plain imports contribute
their names, `from M import a` contributes `"M.a"` (an absent module is the
empty string, per `node.module or ""`). -/
def _extract_imports (tree : PyTree) : List String :=
  tree.walk.flatMap fun t =>
    match t.kindOf with
    | .kImport names => names
    | .kImportFrom module names =>
      names.map (fun n => module.getD "" ++ "." ++ n)
    | _ => []

/-! ### Security regexes (`_check_security_issues`, main.py lines 242-262)

Three of the four patterns are `word\s*\(`; the fourth, `pickle\.loads?`,
matches anywhere the substring "pickle.load" occurs (the trailing `s` is
optional, so presence of "pickle.load" is necessary and sufficient).
`re.search` only asks whether the pattern occurs somewhere in the raw code
text, so each pattern contributes at most one issue. -/

/-- Python's regex class `\s` (without re.UNICODE extras beyond ASCII):
space, tab, newline, carriage return, vertical tab, form feed. -/
def isPyRegexSpace (c : Char) : Bool :=
  c = ' ' || c = '\t' || c = '\n' || c = '\r' || c = '\x0b' || c = '\x0c'

/-- Does the character list start with `\s*\(`? -/
def matchSpacesParen : List Char → Bool
  | [] => false
  | c :: rest => if c = '(' then true else isPyRegexSpace c && matchSpacesParen rest

/-- Does the character list start with `word` then `\s*\(`? -/
def matchWordParenAt (w : List Char) (s : List Char) : Bool :=
  match w, s with
  | [], rest => matchSpacesParen rest
  | _ :: _, [] => false
  | c :: w2, c2 :: s2 => c = c2 && matchWordParenAt w2 s2

/-- `re.search(word + r"\s*\(", s)`: some suffix of `s` starts with the word,
optional whitespace, and an opening parenthesis. -/
def searchWordParen (w : List Char) : List Char → Bool
  | [] => matchWordParenAt w []
  | c :: rest => matchWordParenAt w (c :: rest) || searchWordParen w rest

/-- The four dangerous patterns, by the literal word each searches for, with
the messages of lines 247-252. `dunderImport` stands for `__import__`. -/
inductive DangerPattern where
  | execCall
  | evalCall
  | dunderImportCall
  | pickleLoad
deriving DecidableEq

/-- Whether a pattern's regex matches somewhere in the code text. -/
def patternMatches (p : DangerPattern) (code : String) : Bool :=
  match p with
  | .execCall => searchWordParen "exec".data code.data
  | .evalCall => searchWordParen "eval".data code.data
  | .dunderImportCall => searchWordParen "__import__".data code.data
  | .pickleLoad => decide ("pickle.load".data <:+: code.data)

/-- An entry of the issues list (lines 256-260): always type "security",
severity "high", with the pattern's message. -/
structure SecurityIssue where
  issueType : String
  severity : String
  message : String
deriving DecidableEq

/-- The `dangerous_patterns` list of lines 247-252, in source order. -/
def dangerous_patterns : List (DangerPattern × String) :=
  [(.execCall, "Use of exec() can be dangerous"),
   (.evalCall, "Use of eval() can be dangerous"),
   (.dunderImportCall, "Dynamic imports can be security risks"),
   (.pickleLoad, "Pickle deserialization can be unsafe")]

/-- `CodeAnalyzer._check_security_issues` (lines 242-262): one issue per
pattern that `re.search` finds in the raw code text. -/
def _check_security_issues (code : String) : List SecurityIssue :=
  (dangerous_patterns.filter (fun pm => patternMatches pm.1 code)).map
    (fun pm => ⟨"security", "high", pm.2⟩)

/-- `CodeAnalyzer._get_performance_suggestions` (lines 264-278): one fixed
suggestion when the tree has a For or While node. -/
def _get_performance_suggestions (tree : PyTree) : List String :=
  if tree.walk.any (fun t =>
      match t.kindOf with
      | .kFor => true
      | .kWhile => true
      | _ => false) then
    ["Consider using list comprehensions for better performance"]
  else []

/-- `CodeAnalyzer._calculate_quality_score` (lines 280-297). Python floats
are modelled as rationals; the score starts at 100, drops 2 per complexity
point above 10 and 10 per security issue, gains `doc_ratio * 10` when there
are functions (a docstring that is `None` or the empty string is falsy in
`if f["docstring"]`, so such a function does not count as documented), and
is clamped by `max(0, min(100, score))`. -/
def _calculate_quality_score (complexity : Nat) (security_issues : List SecurityIssue)
    (functions : List FunctionInfo) : Rat :=
  let score : Rat := 100
  let score := if complexity > 10 then score - ((complexity : Rat) - 10) * 2 else score
  let score := score - (security_issues.length : Rat) * 10
  let documented : Nat := (functions.filter (fun f => f.docstring.getD "" != "")).length
  let score :=
    if functions.length ≠ 0 then score + (documented : Rat) / (functions.length : Rat) * 10
    else score
  max 0 (min 100 score)

/-- Python `str.splitlines` on newline-separated text, as used by
`len(code.splitlines())` (a trailing newline does not open an extra line). -/
def pySplitlines (s : String) : List String :=
  let parts := s.splitOn "\n"
  if parts.getLast? = Option.some "" then parts.dropLast else parts

/-- The analysis dictionary built at lines 171-184, after the
`code_quality_score` entry has been filled in. -/
structure Analysis where
  lines_of_code : Nat
  complexity : Nat
  functions : List FunctionInfo
  classes : List ClassInfo
  imports : List String
  security_issues : List SecurityIssue
  performance_suggestions : List String
  code_quality_score : Rat
deriving DecidableEq

/-- The successful branch of `analyze_python_code` (lines 171-186). -/
def buildAnalysis (tree : PyTree) (code : String) : Analysis :=
  { lines_of_code := (pySplitlines code).length
    complexity := _calculate_complexity tree
    functions := _extract_functions tree
    classes := _extract_classes tree
    imports := _extract_imports tree
    security_issues := _check_security_issues code
    performance_suggestions := _get_performance_suggestions tree
    code_quality_score :=
      _calculate_quality_score (_calculate_complexity tree) (_check_security_issues code)
        (_extract_functions tree) }

/-- The result of `analyze_python_code` (lines 160-186): the syntax-error
dictionary (`valid: False`) when `ast.parse` raises, the analysis dictionary
otherwise. -/
inductive AnalysisResult where
  | synError (details : String)
  | ok (a : Analysis)
deriving DecidableEq

/-- `CodeAnalyzer.analyze_python_code` (lines 160-186). `parsed` stands for
the outcome of `ast.parse(code)`: `Except.error` carries the SyntaxError's
text, `Except.ok` the parse tree. -/
def analyze_python_code (parsed : Except String PyTree) (code : String) : AnalysisResult :=
  match parsed with
  | .error e => .synError e
  | .ok tree => .ok (buildAnalysis tree code)

/-! ### The module-level state and its mutation sites (main.py lines 82-85)

`models_cache`, `analysis_results` and `training_jobs` are plain module
dictionaries. `ServiceOp` enumerates every statement of main.py that writes
to one of them, plus the read-only paths that touch them; no statement in
the file deletes, pops or clears an entry. -/

/-- The value stored in `analysis_results` (lines 422-426). -/
structure AnalysisRecord where
  analysis : AnalysisResult
  timestamp : String
  code_length : Nat
deriving DecidableEq

structure ServiceState where
  analysis_results : List (String × AnalysisRecord)
  training_jobs : List (String × JobRecord)
  models_cache : List (String × TrainOutcome)
deriving DecidableEq

def emptyState : ServiceState := ⟨[], [], []⟩

/-- Every statement of main.py that touches one of the three dictionaries:
`storeAnalysis` is line 422, `createJob` line 463, `completeJob` lines
483-490 (it writes `models_cache` first, then rebuilds the job record),
`failJob` lines 495-500, and the final three are the read-only accesses of
the status endpoint (506-509), the WebSocket relay (606-611) and the health
endpoint (407). -/
inductive ServiceOp where
  | storeAnalysis (key : String) (rec : AnalysisRecord)
  | createJob (key : String) (startTime : String)
  | completeJob (key : String) (endTime : String) (metrics : List String)
      (modelType : String) (result : TrainOutcome)
  | failJob (key : String) (endTime : String) (err : String)
  | getTrainingStatus (key : String)
  | wsTrainingStatus (key : String)
  | healthCheck

/-- The state change each operation makes. In `completeJob` the dict literal
of lines 484-490 reads `training_jobs[job_id]["start_time"]` before the
assignment lands, so when the key is absent a KeyError leaves `training_jobs`
unchanged — but line 483 has already written `models_cache`. The same read
guards `failJob` (line 497). -/
def applyServiceOp (op : ServiceOp) (st : ServiceState) : ServiceState :=
  match op with
  | .storeAnalysis key rec =>
    { st with analysis_results := dictSet st.analysis_results key rec }
  | .createJob key startTime =>
    { st with training_jobs := dictSet st.training_jobs key ⟨"training", startTime, .none, .none, .none, .none⟩ }
  | .completeJob key endTime metrics modelType result =>
    let st1 := { st with models_cache := dictSet st.models_cache key result }
    match dictGet st1.training_jobs key with
    | Option.some old =>
      let newRec : JobRecord :=
        ⟨"completed", old.start_time, Option.some endTime,
          Option.some (String.intercalate "," metrics), Option.some modelType, Option.none⟩
      { st1 with training_jobs := dictSet st1.training_jobs key newRec }
    | Option.none => st1
  | .failJob key endTime err =>
    match dictGet st.training_jobs key with
    | Option.some old =>
      let newRec : JobRecord :=
        ⟨"failed", old.start_time, Option.some endTime, Option.none, Option.none, Option.some err⟩
      { st with training_jobs := dictSet st.training_jobs key newRec }
    | Option.none => st
  | .getTrainingStatus _ => st
  | .wsTrainingStatus _ => st
  | .healthCheck => st

/-- A run of the service: the operations applied in order from a state. -/
def runOps (ops : List ServiceOp) (st : ServiceState) : ServiceState :=
  ops.foldl (fun s op => applyServiceOp op s) st

/-! ### The POST handlers (main.py lines 411-501)

A handler is a function of the request, the current time and the state. The
wall clock `time.time()` is modelled in milliseconds; `int(time.time())` is
division by 1000. `datetime.now().isoformat()` is an opaque string
parameter. -/

def int_time (ms : Nat) : Nat := ms / 1000

/-- `f"analysis_{int(time.time())}"` (line 421). -/
def analysisKey (now : Nat) : String := "analysis_" ++ toString now

/-- `f"training_{int(time.time())}"` (line 462). -/
def trainingKey (now : Nat) : String := "training_" ++ toString now

/-- Python `str.lower()` on the request's language tag (ASCII casing). -/
def pyLower (s : String) : String := ⟨s.data.map Char.toLower⟩

/-- `CodeAnalysisRequest` (lines 58-61). -/
structure CodeAnalysisRequest where
  code : String
  language : String := "python"
  analysis_type : String := "full"
deriving DecidableEq

/-- The JSON body `analyze_code` returns on success (lines 428-432). -/
structure AnalyzeResponse where
  analysis_id : String
  analysis : AnalysisResult
  timestamp : String
deriving DecidableEq

/-- The `analyze_code` handler (lines 411-436). `parsed` stands for what
`ast.parse(request.code)` would yield inside `analyze_python_code`. The
`raise HTTPException(status_code=400, ...)` for a non-Python language sits
inside the `try`, so it passes through `blanketCatch` like every other
exception. -/
def analyze_code (req : CodeAnalysisRequest) (parsed : Except String PyTree)
    (now : Nat) (nowIso : String) (st : ServiceState) :
    Except PyException (AnalyzeResponse × ServiceState) :=
  blanketCatch (
    if pyLower req.language ≠ "python" then
      .error (.httpExc 400 "Only Python analysis supported currently")
    else
      let analysis := analyze_python_code parsed req.code
      let analysis_id := analysisKey now
      let st2 := applyServiceOp (.storeAnalysis analysis_id ⟨analysis, nowIso, req.code.length⟩) st
      .ok (⟨analysis_id, analysis, nowIso⟩, st2))

/-- `MLTrainingRequest` (lines 63-67): rows are JSON objects. The declared
`test_size` field defaults to 0.2. -/
structure MLTrainingRequest where
  data : List (List (String × PyVal))
  target_column : String
  model_type : String := "auto"
  test_size : Rat := 1 / 5
deriving DecidableEq

/-- `pd.DataFrame(rows).columns`: the union of the rows' keys. Only
membership in this list is used, so the column order is immaterial. -/
def dfColumns (rows : List (List (String × PyVal))) : List String :=
  (rows.flatMap (fun r => r.map Prod.fst)).dedup

/-- A row's value in a column; a key the row lacks is NaN in the dataframe. -/
def rowGet (row : List (String × PyVal)) (col : String) : PyVal :=
  ((row.find? (fun p => p.1 == col)).map (·.2)).getD .null

/-- Whether pandas infers dtype `object` for a column built from JSON rows:
it holds a string, or holds only nulls (None stays `object`; a null among
numbers becomes NaN in a float column). -/
def columnDtypeIsObject (cells : List PyVal) : Bool :=
  cells.any PyVal.isStr || cells.all (fun v => v == PyVal.null)

/-- `sklearn.LabelEncoder().fit_transform`: each string's index in the
sorted list of distinct values. -/
def labelEncodeStrings (xs : List String) : List Nat :=
  let classes := xs.dedup.insertionSort (· ≤ ·)
  xs.map (fun s => classes.indexOf s)

/-- Lines 452-459: `X = df.drop(columns=[target])`, then each object-dtype
column is label-encoded over `astype(str)`. -/
def prepareFeatures (rows : List (List (String × PyVal))) (target : String) :
    List (String × List PyVal) :=
  ((dfColumns rows).filter (fun c => c != target)).map fun c =>
    let cells := rows.map (fun r => rowGet r c)
    if columnDtypeIsObject cells then
      (c, (labelEncodeStrings (cells.map PyVal.pyStr)).map (fun n => PyVal.num n))
    else (c, cells)

/-- The JSON body `train_ml_model` returns on success (lines 467-471). -/
structure TrainStartResponse where
  job_id : String
  status : String
  message : String
deriving DecidableEq

/-- What `background_tasks.add_task(train_model_background, job_id, X, y,
request.model_type)` (line 465) passes along: note `request.test_size` is
not among the arguments. -/
structure ScheduledTask where
  job_id : String
  X : List (String × List PyVal)
  y : List PyVal
  model_type : String
deriving DecidableEq

structure TrainHandlerOutput where
  response : TrainStartResponse
  state : ServiceState
  task : ScheduledTask
deriving DecidableEq

/-- The `train_ml_model` handler (lines 438-475). Both validation failures
`raise HTTPException(status_code=400, ...)` inside the `try`, so they pass
through `blanketCatch` like every other exception. -/
def train_ml_model (req : MLTrainingRequest) (now : Nat) (nowIso : String)
    (st : ServiceState) : Except PyException TrainHandlerOutput :=
  blanketCatch (
    if req.data = [] then .error (.httpExc 400 "No data provided")
    else if req.target_column ∉ dfColumns req.data then
      .error (.httpExc 400 ("Target column '" ++ req.target_column ++ "' not found"))
    else
      let X := prepareFeatures req.data req.target_column
      let y := req.data.map (fun r => rowGet r req.target_column)
      let job_id := trainingKey now
      let st2 := applyServiceOp (.createJob job_id nowIso) st
      .ok ⟨⟨job_id, "training_started", "Model training started in background"⟩,
            st2, ⟨job_id, X, y, req.model_type⟩⟩)

/-- The background task `train_model_background` (lines 477-501). `outcome`
stands for running `ml_service.train_model(X, y, model_type)`, which can
raise inside sklearn; on success the model is cached and the job record
completed, on an exception the record is marked failed. -/
def train_model_background (task : ScheduledTask) (endIso : String)
    (outcome : Except String TrainOutcome) (st : ServiceState) : ServiceState :=
  match outcome with
  | .ok result =>
    applyServiceOp (.completeJob task.job_id endIso result.metric_keys result.model_type result) st
  | .error e => applyServiceOp (.failJob task.job_id endIso e) st

/-! ### DataProcessor (main.py lines 299-362)

A processed dataframe is a list of named, dtyped columns. The dtype tag is
the string pandas reports (`"int64"`, `"float64"`, `"object"`, ...), matching
the literal comparison `df[col].dtype in ['int64', 'float64']` of line 327. -/

structure DataColumn where
  name : String
  dtype : String
  cells : List PyVal
deriving DecidableEq

/-- The numeric entries of a column (NaN dropped, as pandas reductions do). -/
def colNums (cells : List PyVal) : List Rat :=
  cells.filterMap fun v =>
    match v with
    | .num q => Option.some q
    | _ => Option.none

/-- The non-null entries of a column: `mode(dropna=True)` (the default)
counts every value of the column that is not NaN/None, whatever its type. -/
def colNonNull (cells : List PyVal) : List PyVal :=
  cells.filter (fun v => v != PyVal.null)

/-- `Series.median()` with the default linear interpolation: the middle of
the sorted non-null values, or the mean of the two middles; NaN (here
`Option.none`) when there is nothing to take a median of. -/
def median (xs : List Rat) : Option Rat :=
  let s := xs.insertionSort (· ≤ ·)
  let n := s.length
  if n = 0 then Option.none
  else if n % 2 = 1 then s[n / 2]?
  else
    match s[n / 2 - 1]?, s[n / 2]? with
    | Option.some a, Option.some b => Option.some ((a + b) / 2)
    | _, _ => Option.none

/-- The order in which pandas returns tied mode values: `mode()` sorts the
candidates ascending, which for a homogeneous candidate list is the numeric
or lexicographic order modelled here. When the candidates mix numbers and
strings NumPy's sort raises TypeError, pandas warns "Unable to sort modes"
and keeps an unspecified hash order; the embedding fixes that cross-kind
tiebreak as numbers before strings. -/
def PyVal.leB : PyVal → PyVal → Bool
  | .null, _ => true
  | _, .null => false
  | .num a, .num b => decide (a ≤ b)
  | .num _, .str _ => true
  | .str _, .num _ => false
  | .str a, .str b => decide (a ≤ b)

/-- `Series.mode().iloc[0]`: the most frequent of the column's non-null
values (ties broken by `PyVal.leB`, see there); `Option.none` when the mode
series is empty (no non-null values), which is the
`if not df[col].mode().empty` guard of line 330. -/
def modeFirst (xs : List PyVal) : Option PyVal :=
  let vals := xs.dedup
  let maxCount := (vals.map (fun v => xs.count v)).foldr max 0
  let modes := vals.filter (fun v => xs.count v == maxCount)
  (modes.insertionSort (fun a b => PyVal.leB a b = true)).head?

/-- One column of `DataProcessor._clean_data` (lines 323-332): an
int64/float64 column fills NaN with the column's median (`fillna` with NaN —
the median of an all-NaN column — changes nothing), any other column fills
NaN with `mode().iloc[0]`, falling back to "Unknown" when the mode series
is empty. -/
def cleanColumn (c : DataColumn) : DataColumn :=
  if c.dtype = "int64" ∨ c.dtype = "float64" then
    match median (colNums c.cells) with
    | Option.some m =>
      { c with cells := c.cells.map (fun v => match v with | .null => .num m | w => w) }
    | Option.none => c
  else
    let fill := (modeFirst (colNonNull c.cells)).getD (PyVal.str "Unknown")
    { c with cells := c.cells.map (fun v => match v with | .null => fill | w => w) }

/-- `DataProcessor._clean_data` (lines 323-332), column by column. -/
def _clean_data (df : List DataColumn) : List DataColumn :=
  df.map cleanColumn

/-- `DataProcessor._transform_data` (lines 334-345): each object column is
label-encoded over `astype(str)` (which prints None as "None"), becoming an
integer column; `le.fit_transform` does not raise on strings, so the
`except: pass` path is never taken on these inputs. -/
def _transform_data (df : List DataColumn) : List DataColumn :=
  df.map fun c =>
    if c.dtype = "object" then
      { c with dtype := "int64",
               cells := (labelEncodeStrings (c.cells.map PyVal.pyStr)).map (fun n => PyVal.num n) }
    else c

/-- One iteration of the `for operation in operations` loop of
`process_data` (lines 310-316): "clean" and "transform" replace the
dataframe, "analyze" only writes a report into the results dictionary, and
an unknown operation does nothing. -/
def applyOperation (df : List DataColumn) (op : String) : List DataColumn :=
  if op = "clean" then _clean_data df
  else if op = "transform" then _transform_data df
  else df

/-- The dataframe after `process_data`'s operation loop (lines 305-321). -/
def processOperations (df : List DataColumn) (operations : List String) : List DataColumn :=
  operations.foldl applyOperation df

/-! ### The stub variant of the service -/

structure StubResponse where
  status : Nat
  body : String
deriving DecidableEq

/-- Modelled from the spec: the repository carries a second, stub variant of
this service whose source is not under src/ here; per the spec it "answers
every route with a fixed 501 payload", "a pure stub that returns a fixed
'not implemented' response for every route". -/
def stub_service (_route : String) : StubResponse :=
  ⟨501, "not implemented"⟩

/-! ## Helper lemmas -/

/-- Unfolding equation of `PyTree.walk` without the `attach` used for
termination. -/
theorem walk_node (k : PyNodeKind) (cs : List PyTree) :
    (PyTree.node k cs).walk = .node k cs :: (cs.map PyTree.walk).flatten := by
  rw [PyTree.walk, List.attach_map_coe]

/-- Unfolding equation of `PyTree.branchCount` without the `attach` used for
termination. -/
theorem branchCount_node (k : PyNodeKind) (cs : List PyTree) :
    (PyTree.node k cs).branchCount =
      (if isBranchKind k then 1 else 0) + (cs.map PyTree.branchCount).sum := by
  rw [PyTree.branchCount, List.attach_map_coe]

/-- The complexity loop body adds exactly the `isBranchKind` indicator. -/
theorem complexityStep_eq (c : Nat) (t : PyTree) :
    complexityStep c t = c + (if isBranchKind t.kindOf then 1 else 0) := by
  rcases t with ⟨k, cs⟩
  cases k <;> simp [complexityStep, isBranchKind, PyTree.kindOf]

/-- Folding the loop body over any node list counts the branch kinds. -/
theorem foldl_complexityStep (l : List PyTree) (c : Nat) :
    l.foldl complexityStep c = c + l.countP (fun t => isBranchKind t.kindOf) := by
  induction l generalizing c with
  | nil => simp
  | cons t ts ih => rw [List.foldl_cons, ih, complexityStep_eq, List.countP_cons]; omega

/-- Counting branch kinds along `walk` is the structural count. -/
theorem walk_countP (t : PyTree) :
    t.walk.countP (fun u => isBranchKind u.kindOf) = t.branchCount := by
  induction t using PyTree.walk.induct with
  | _ k cs ih =>
    rw [walk_node, branchCount_node]
    simp only [List.countP_cons, List.countP_flatten, List.map_map, Function.comp_def]
    have hmap : (cs.map fun c => (PyTree.walk c).countP (fun u => isBranchKind u.kindOf))
        = cs.map PyTree.branchCount := by
      apply List.map_congr_left
      intro c hc
      exact ih ⟨c, hc⟩
    rw [hmap, PyTree.kindOf]
    omega

/-- Filtering out the key `k` does not change a lookup for a different key. -/
theorem find?_filter_ne {β : Type} (t : List (String × β)) (k k2 : String) (h : k2 ≠ k) :
    (t.filter (fun p => p.1 != k)).find? (fun p => p.1 == k2) = t.find? (fun p => p.1 == k2) := by
  induction t with
  | nil => rfl
  | cons a t ih =>
    by_cases ha : a.1 = k
    · have hne2 : ¬ ((a.1 == k2) = true) := by
        simp only [beq_iff_eq, ha]
        exact fun e => h e.symm
      rw [List.filter_cons, if_neg (by simp [ha]),
        List.find?_cons_of_neg (p := fun x : String × β => x.1 == k2) _ hne2]
      exact ih
    · rw [List.filter_cons, if_pos (by simp [ha])]
      by_cases h2 : (a.1 == k2) = true
      · rw [List.find?_cons_of_pos (p := fun x : String × β => x.1 == k2) _ h2,
          List.find?_cons_of_pos (p := fun x : String × β => x.1 == k2) _ h2]
      · rw [List.find?_cons_of_neg (p := fun x : String × β => x.1 == k2) _ h2,
          List.find?_cons_of_neg (p := fun x : String × β => x.1 == k2) _ h2]
        exact ih

/-- Looking a key up after a Python dict assignment: the assigned key maps to
the new value, every other key is untouched. -/
theorem dictGet_dictSet {β : Type} (m : List (String × β)) (k k2 : String) (v : β) :
    dictGet (dictSet m k v) k2 = if k2 = k then Option.some v else dictGet m k2 := by
  unfold dictGet dictSet
  by_cases h : k2 = k
  · subst h
    simp [List.find?]
  · rw [if_neg h]
    have hfa : ¬ (((k, v).1 == k2) = true) := by
      simp only [beq_iff_eq]
      exact fun e => h e.symm
    rw [List.find?_cons_of_neg (p := fun x : String × β => x.1 == k2) _ hfa, find?_filter_ne _ _ _ h]

/-! ## Claim theorems -/

/-- A training request with the empty data list: `if not request.data` at
line 443 raises `HTTPException(400, "No data provided")`. -/
def emptyDataRequest : MLTrainingRequest :=
  { data := [], target_column := "label", model_type := "auto", test_size := 1 / 5 }

/-- A code-analysis request whose language is not Python: line 415 raises
`HTTPException(400, "Only Python analysis supported currently")`. -/
def nonPythonRequest : CodeAnalysisRequest :=
  { code := "print(1)", language := "javascript", analysis_type := "full" }

/-- C1. The claim says a validation failure yields an explicit HTTP 400.
In the code both explicit `HTTPException(400, ...)` raises sit inside the
`try`, and `fastapi.HTTPException` is a subclass of `Exception`, so the
blanket `except Exception as e: raise HTTPException(500, str(e))` catches
them: the caller receives a 500 whose detail is the 400's own rendering
("400: No data provided", "400: Only Python analysis supported currently").
The claim's second half — any other exception becomes a 500 carrying the
original exception text — does hold, as the third conjunct shows on a
runtime exception. -/
theorem C1_validation_400_is_swallowed_to_500 :
    train_ml_model emptyDataRequest 100 "t0" emptyState =
      Except.error (PyException.httpExc 500 "400: No data provided")
  ∧ analyze_code nonPythonRequest (Except.error "unused") 100 "t0" emptyState =
      Except.error (PyException.httpExc 500 "400: Only Python analysis supported currently")
  ∧ blanketCatch (α := Nat) (Except.error (PyException.runtimeExc "boom")) =
      Except.error (PyException.httpExc 500 "boom") :=
  ⟨rfl, rfl, rfl⟩

/-- C8. Modelled from the spec (the stub variant's source is not under
src/): the stub answers every route with the same fixed 501
"not implemented" payload. -/
theorem C8_stub_variant_answers_501_everywhere (r1 r2 : String) :
    (stub_service r1).status = 501
  ∧ (stub_service r1).body = "not implemented"
  ∧ stub_service r1 = stub_service r2 :=
  ⟨rfl, rfl, rfl⟩

/-- C9. The request's `test_size` field is dead: the handler never reads it
(two requests differing only there produce the same response, state and
scheduled background task), and `train_model` always splits with the
hard-coded `test_size=0.2, random_state=42` of lines 106-108. -/
theorem C9_test_size_is_ignored (req : MLTrainingRequest) (ts : Rat) (now : Nat)
    (iso : String) (st : ServiceState) (y : List PyVal) (mt : String) :
    train_ml_model { req with test_size := ts } now iso st = train_ml_model req now iso st
  ∧ (train_model y mt).test_size = 1 / 5
  ∧ (train_model y mt).random_state = 42 := by
  refine ⟨?_, rfl, rfl⟩
  cases req
  rfl

/-- C2. The estimator heuristic of `MLService.train_model`: with model_type
"auto" the resolved problem type is "classification" exactly when the first
label is a string or the number of distinct labels is below 10; a resolved
classification problem with exactly two distinct labels gets logistic
regression, any other classification gets the random-forest classifier, and
everything else (regression included) gets the random-forest regressor; the
returned metrics carry accuracy and a classification report for
classification and MSE/RMSE otherwise. -/
theorem C2_estimator_heuristic (y : List PyVal) (mt : String) :
    ((train_model y "auto").model_type = "classification"
        ↔ ((y.getD 0 PyVal.null).isStr = true ∨ y.dedup.length < 10))
  ∧ ((train_model y mt).estimator = .logisticRegression
        ↔ ((train_model y mt).model_type = "classification" ∧ y.dedup.length = 2))
  ∧ ((train_model y mt).estimator = .randomForestClassifier
        ↔ ((train_model y mt).model_type = "classification" ∧ y.dedup.length ≠ 2))
  ∧ ((train_model y mt).estimator = .randomForestRegressor
        ↔ (train_model y mt).model_type ≠ "classification")
  ∧ ((train_model y mt).metric_keys = ["accuracy", "classification_report"]
        ↔ (train_model y mt).model_type = "classification")
  ∧ ((train_model y mt).metric_keys = ["mse", "rmse"]
        ↔ (train_model y mt).model_type ≠ "classification") := by
  unfold train_model auto_detect_problem_type chooseEstimator metricKeys
  split_ifs <;> simp_all <;> split <;> simp_all

/-- `matchSpacesParen` accepts exactly the lists that start with whitespace
and then an opening parenthesis. -/
theorem matchSpacesParen_iff (l : List Char) :
    matchSpacesParen l = true ↔
      ∃ ws b, l = ws ++ '(' :: b ∧ ∀ c ∈ ws, isPyRegexSpace c = true := by
  induction l with
  | nil =>
    constructor
    · intro h
      exact absurd h (by simp [matchSpacesParen])
    · rintro ⟨ws, b, heq, -⟩
      exact absurd heq (by cases ws <;> simp)
  | cons c rest ih =>
    rw [matchSpacesParen]
    by_cases hc : c = '('
    · subst hc
      rw [if_pos rfl]
      exact iff_of_true rfl ⟨[], rest, rfl, by simp⟩
    · rw [if_neg hc, Bool.and_eq_true]
      constructor
      · rintro ⟨hsp, hrec⟩
        obtain ⟨ws, b, heq, hws⟩ := ih.mp hrec
        refine ⟨c :: ws, b, by rw [heq]; rfl, ?_⟩
        intro x hx
        rcases List.mem_cons.mp hx with hx | hx
        · exact hx ▸ hsp
        · exact hws x hx
      · rintro ⟨ws, b, heq, hws⟩
        cases ws with
        | nil =>
          simp only [List.nil_append, List.cons.injEq] at heq
          exact absurd heq.1 hc
        | cons w ws2 =>
          simp only [List.cons_append, List.cons.injEq] at heq
          obtain ⟨hcw, hrest⟩ := heq
          refine ⟨hcw ▸ hws w (List.mem_cons_self _ _), ?_⟩
          exact ih.mpr ⟨ws2, b, hrest, fun x hx => hws x (List.mem_cons_of_mem _ hx)⟩

/-- `matchWordParenAt` accepts exactly the lists that start with the word,
whitespace, and an opening parenthesis. -/
theorem matchWordParenAt_iff (w s : List Char) :
    matchWordParenAt w s = true ↔
      ∃ ws b, s = w ++ ws ++ '(' :: b ∧ ∀ c ∈ ws, isPyRegexSpace c = true := by
  induction w generalizing s with
  | nil => simpa using matchSpacesParen_iff s
  | cons c w2 ih =>
    cases s with
    | nil =>
      constructor
      · intro h
        exact absurd h (by simp [matchWordParenAt])
      · rintro ⟨ws, b, heq, -⟩
        exact absurd heq (by simp)
    | cons c2 s2 =>
      rw [matchWordParenAt, Bool.and_eq_true]
      constructor
      · rintro ⟨hc, hrec⟩
        have hc2 : c = c2 := by simpa using hc
        obtain ⟨ws, b, heq, hws⟩ := (ih s2).mp hrec
        exact ⟨ws, b, by rw [heq, hc2]; rfl, hws⟩
      · rintro ⟨ws, b, heq, hws⟩
        simp only [List.cons_append, List.cons.injEq] at heq
        obtain ⟨h1, h2⟩ := heq
        exact ⟨by simp [h1], (ih s2).mpr ⟨ws, b, h2, hws⟩⟩

/-- `searchWordParen` is `re.search(word + r"\s*\(", s)`: some split of `s`
puts the word, optional whitespace and an opening parenthesis in the middle. -/
theorem searchWordParen_iff (w s : List Char) :
    searchWordParen w s = true ↔
      ∃ a ws b, s = a ++ w ++ ws ++ '(' :: b ∧ ∀ c ∈ ws, isPyRegexSpace c = true := by
  induction s with
  | nil =>
    rw [searchWordParen, matchWordParenAt_iff]
    constructor
    · rintro ⟨ws, b, heq, -⟩
      exact absurd heq (by simp)
    · rintro ⟨a, ws, b, heq, -⟩
      exact absurd heq (by simp)
  | cons c rest ih =>
    rw [searchWordParen, Bool.or_eq_true, matchWordParenAt_iff, ih]
    constructor
    · rintro (⟨ws, b, heq, hws⟩ | ⟨a, ws, b, heq, hws⟩)
      · exact ⟨[], ws, b, by simpa using heq, hws⟩
      · exact ⟨c :: a, ws, b, by simp [heq], hws⟩
    · rintro ⟨a, ws, b, heq, hws⟩
      cases a with
      | nil =>
        exact Or.inl ⟨ws, b, by simpa using heq, hws⟩
      | cons a0 a2 =>
        simp only [List.cons_append, List.cons.injEq] at heq
        exact Or.inr ⟨a2, ws, b, heq.2, hws⟩

/-- C5 (amended). The reported complexity is one traversal of the tree and
equals 1 plus the number of If/While/For/Try/Lambda nodes in the tree —
which means an `elif` arm, being a nested `ast.If` node, DOES add 1 (the
original claim's "elif arms contribute nothing on their own" fails; except
handlers and with statements do contribute nothing, as `kExceptHandler` and
`kWith` are not branch kinds). The reported security issues are exactly one
issue per dangerous pattern the raw text matches, where a `word\s*\(`
pattern matches iff the text contains the word, optional whitespace and an
opening parenthesis, and `pickle\.loads?` matches iff the text contains the
substring "pickle.load". -/
theorem C5_complexity_and_security (t : PyTree) (code : String) (w s : List Char) :
    _calculate_complexity t = 1 + t.branchCount
  ∧ (searchWordParen w s = true ↔
      ∃ a ws b, s = a ++ w ++ ws ++ '(' :: b ∧ ∀ c ∈ ws, isPyRegexSpace c = true)
  ∧ (patternMatches .pickleLoad code = true ↔
      ∃ a b, a ++ "pickle.load".data ++ b = code.data)
  ∧ _check_security_issues code =
      (dangerous_patterns.filter (fun pm => patternMatches pm.1 code)).map
        (fun pm => ⟨"security", "high", pm.2⟩) := by
  refine ⟨?_, searchWordParen_iff w s, ?_, rfl⟩
  · rw [_calculate_complexity, foldl_complexityStep, walk_countP]
  · simp only [patternMatches, decide_eq_true_eq]
    exact Iff.rfl

/-- The tree of `if a:\n pass\nelif b:\n pass`: per Python's grammar the
elif arm is a nested `ast.If` inside the outer `If`'s `orelse`. -/
def elifExample : PyTree :=
  .node .kModule [.node .kIf [.node .kOther [], .node .kIf [.node .kOther []]]]

/-- The same program without the elif arm: `if a:\n pass`. -/
def plainIfExample : PyTree :=
  .node .kModule [.node .kIf [.node .kOther []]]

/-- C5 counterexample: adding one elif arm raises the reported complexity
from 2 to 3, so elif arms do not "contribute nothing on their own". -/
theorem C5_cex_elif_adds_complexity :
    _calculate_complexity elifExample = 3
  ∧ _calculate_complexity plainIfExample = 2 := by
  constructor <;>
    simp [_calculate_complexity, elifExample, plainIfExample, walk_node, complexityStep,
      PyTree.kindOf]

/-- C3. Result and job keys are the fixed prefix plus `int(time.time())`,
the wall clock truncated to whole seconds: two calls of the same kind whose
clock readings fall in the same second produce the identical key, and on
every accepted request the response's id is that key and the record is
stored under it. -/
theorem C3_timestamp_keys (ms1 ms2 : Nat) (h : ms1 / 1000 = ms2 / 1000)
    (req : CodeAnalysisRequest) (parsed : Except String PyTree) (iso iso2 : String)
    (st st2 : ServiceState) (treq : MLTrainingRequest) :
    analysisKey (int_time ms1) = analysisKey (int_time ms2)
  ∧ trainingKey (int_time ms1) = trainingKey (int_time ms2)
  ∧ analysisKey (int_time ms1) = "analysis_" ++ toString (ms1 / 1000)
  ∧ trainingKey (int_time ms1) = "training_" ++ toString (ms1 / 1000)
  ∧ (∀ out, analyze_code req parsed (int_time ms1) iso st = Except.ok out →
      out.1.analysis_id = analysisKey (int_time ms1)
      ∧ (dictGet out.2.analysis_results (analysisKey (int_time ms1))).isSome = true)
  ∧ (∀ out, train_ml_model treq (int_time ms1) iso2 st2 = Except.ok out →
      out.response.job_id = trainingKey (int_time ms1)
      ∧ (dictGet out.state.training_jobs (trainingKey (int_time ms1))).isSome = true) := by
  refine ⟨by rw [int_time, int_time, h], by rw [int_time, int_time, h], rfl, rfl, ?_, ?_⟩
  · intro out hout
    unfold analyze_code blanketCatch at hout
    split at hout
    · rename_i a heq
      obtain rfl : a = out := Except.ok.inj hout
      split at heq
      · exact absurd heq (by simp)
      · dsimp only at heq
        obtain rfl := Except.ok.inj heq
        exact ⟨rfl, by simp [applyServiceOp, dictGet_dictSet]⟩
    · exact absurd hout (by simp)
  · intro out hout
    unfold train_ml_model blanketCatch at hout
    split at hout
    · rename_i a heq
      obtain rfl : a = out := Except.ok.inj hout
      split at heq
      · exact absurd heq (by simp)
      · split at heq
        · exact absurd heq (by simp)
        · dsimp only at heq
          obtain rfl := Except.ok.inj heq
          exact ⟨rfl, by simp [applyServiceOp, dictGet_dictSet]⟩
    · exact absurd hout (by simp)

/-- C3 witness: two clock readings 5.3 s and 5.999 s truncate to the same
second and give the same keys. -/
theorem C3_timestamp_keys_witness :
    analysisKey (int_time 5300) = analysisKey (int_time 5999)
  ∧ trainingKey (int_time 5300) = trainingKey (int_time 5999) := by
  have h := C3_timestamp_keys 5300 5999 (by decide)
    ⟨"", "python", "full"⟩ (Except.error "e") "i" "i" emptyState emptyState
    ⟨[], "t", "auto", 1 / 5⟩
  exact ⟨h.1, h.2.1⟩

/-- A step either leaves a job record alone or writes one of the three
status literals. -/
theorem applyServiceOp_status (st : ServiceState) (op : ServiceOp) (k : String) (r : JobRecord)
    (hr : dictGet (applyServiceOp op st).training_jobs k = Option.some r) :
    dictGet st.training_jobs k = Option.some r
    ∨ r.status = "training" ∨ r.status = "completed" ∨ r.status = "failed" := by
  cases op with
  | storeAnalysis key v => exact Or.inl (by simpa [applyServiceOp] using hr)
  | createJob key t0 =>
    simp only [applyServiceOp] at hr
    rw [dictGet_dictSet] at hr
    by_cases hk : k = key
    · rw [if_pos hk] at hr
      obtain rfl := Option.some.inj hr
      exact Or.inr (Or.inl rfl)
    · rw [if_neg hk] at hr
      exact Or.inl hr
  | completeJob key e m mt res =>
    simp only [applyServiceOp] at hr
    split at hr
    · rw [dictGet_dictSet] at hr
      by_cases hk : k = key
      · rw [if_pos hk] at hr
        obtain rfl := Option.some.inj hr
        exact Or.inr (Or.inr (Or.inl rfl))
      · rw [if_neg hk] at hr
        exact Or.inl hr
    · exact Or.inl hr
  | failJob key e err =>
    simp only [applyServiceOp] at hr
    split at hr
    · rw [dictGet_dictSet] at hr
      by_cases hk : k = key
      · rw [if_pos hk] at hr
        obtain rfl := Option.some.inj hr
        exact Or.inr (Or.inr (Or.inr rfl))
      · rw [if_neg hk] at hr
        exact Or.inl hr
    · exact Or.inl hr
  | getTrainingStatus key => exact Or.inl (by simpa [applyServiceOp] using hr)
  | wsTrainingStatus key => exact Or.inl (by simpa [applyServiceOp] using hr)
  | healthCheck => exact Or.inl (by simpa [applyServiceOp] using hr)

/-- Status validity is preserved along any run. -/
theorem runOps_status (ops : List ServiceOp) : ∀ (st : ServiceState),
    (∀ k r, dictGet st.training_jobs k = Option.some r →
      r.status = "training" ∨ r.status = "completed" ∨ r.status = "failed") →
    ∀ k r, dictGet (runOps ops st).training_jobs k = Option.some r →
      r.status = "training" ∨ r.status = "completed" ∨ r.status = "failed" := by
  induction ops with
  | nil => exact fun st h => by simpa [runOps] using h
  | cons op ops ih =>
    intro st h
    rw [runOps, List.foldl_cons]
    refine ih (applyServiceOp op st) ?_
    intro k r hr
    rcases applyServiceOp_status st op k r hr with hold | hnew
    · exact h k r hold
    · exact hnew

/-- C4 (amended). Every record ever readable from `training_jobs` in a run
from the empty state has status "training", "completed" or "failed"; the
background task's terminal writes preserve the record's `start_time` (and
set "completed"/"failed" exactly once each per task, since
`train_model_background` performs a single terminal write); and the only
operation that can make the status at a key "training" when it was not is
the job-creation write itself — i.e. a later request re-using the same
timestamp key. Without such a key collision no record moves from
"completed" or "failed" back to "training". -/
theorem C4_job_status_lifecycle :
    (∀ ops k r, dictGet (runOps ops emptyState).training_jobs k = Option.some r →
      r.status = "training" ∨ r.status = "completed" ∨ r.status = "failed")
  ∧ (∀ st k old e m mt res, dictGet st.training_jobs k = Option.some old →
      dictGet (applyServiceOp (.completeJob k e m mt res) st).training_jobs k =
        Option.some ⟨"completed", old.start_time, Option.some e,
          Option.some (String.intercalate "," m), Option.some mt, Option.none⟩)
  ∧ (∀ st k old e err, dictGet st.training_jobs k = Option.some old →
      dictGet (applyServiceOp (.failJob k e err) st).training_jobs k =
        Option.some ⟨"failed", old.start_time, Option.some e,
          Option.none, Option.none, Option.some err⟩)
  ∧ (∀ st op k r r2, dictGet st.training_jobs k = Option.some r →
      dictGet (applyServiceOp op st).training_jobs k = Option.some r2 →
      r2.status = "training" → r.status ≠ "training" →
      ∃ t0, op = ServiceOp.createJob k t0) := by
  refine ⟨?_, ?_, ?_, ?_⟩
  · intro ops k r
    exact runOps_status ops emptyState (by intro k r hr; simp [emptyState, dictGet] at hr) k r
  · intro st k old e m mt res h
    simp [applyServiceOp, h, dictGet_dictSet]
  · intro st k old e err h
    simp [applyServiceOp, h, dictGet_dictSet]
  · intro st op k r r2 hr hr2 hst hne
    cases op with
    | storeAnalysis key v =>
      simp only [applyServiceOp] at hr2
      rw [hr] at hr2
      obtain rfl := Option.some.inj hr2
      exact absurd hst hne
    | createJob key t0 =>
      simp only [applyServiceOp] at hr2
      rw [dictGet_dictSet] at hr2
      by_cases hk : k = key
      · exact ⟨t0, by rw [hk]⟩
      · rw [if_neg hk, hr] at hr2
        obtain rfl := Option.some.inj hr2
        exact absurd hst hne
    | completeJob key e m mt res =>
      simp only [applyServiceOp] at hr2
      split at hr2
      · rw [dictGet_dictSet] at hr2
        by_cases hk : k = key
        · rw [if_pos hk] at hr2
          obtain rfl := Option.some.inj hr2
          exact absurd hst (by simp)
        · rw [if_neg hk, hr] at hr2
          obtain rfl := Option.some.inj hr2
          exact absurd hst hne
      · rw [hr] at hr2
        obtain rfl := Option.some.inj hr2
        exact absurd hst hne
    | failJob key e err =>
      simp only [applyServiceOp] at hr2
      split at hr2
      · rw [dictGet_dictSet] at hr2
        by_cases hk : k = key
        · rw [if_pos hk] at hr2
          obtain rfl := Option.some.inj hr2
          exact absurd hst (by simp)
        · rw [if_neg hk, hr] at hr2
          obtain rfl := Option.some.inj hr2
          exact absurd hst hne
      · rw [hr] at hr2
        obtain rfl := Option.some.inj hr2
        exact absurd hst hne
    | getTrainingStatus key =>
      simp only [applyServiceOp] at hr2
      rw [hr] at hr2
      obtain rfl := Option.some.inj hr2
      exact absurd hst hne
    | wsTrainingStatus key =>
      simp only [applyServiceOp] at hr2
      rw [hr] at hr2
      obtain rfl := Option.some.inj hr2
      exact absurd hst hne
    | healthCheck =>
      simp only [applyServiceOp] at hr2
      rw [hr] at hr2
      obtain rfl := Option.some.inj hr2
      exact absurd hst hne

/-- A completed-training outcome used by the collision trace. -/
def collisionOutcome : TrainOutcome :=
  ⟨"classification", .logisticRegression, ["accuracy", "classification_report"], 1 / 5, 42⟩

/-- Request A creates job "training_100" and its background task completes;
request B arrives within the same wall-clock second and re-creates the same
key. -/
def collisionOps2 : List ServiceOp :=
  [.createJob "training_100" "t0",
   .completeJob "training_100" "t1" ["accuracy", "classification_report"] "classification"
     collisionOutcome]

def collisionOps3 : List ServiceOp := collisionOps2 ++ [.createJob "training_100" "t2"]

/-- C4 counterexample: after A's task completes the record at "training_100"
has status "completed"; B's same-second creation overwrites it back to
"training", so the claim's "no operation ever moves a record from
completed/failed back to training" fails on this concrete run. -/
theorem C4_cex_collision_resets_completed :
    (dictGet (runOps collisionOps2 emptyState).training_jobs "training_100").map
        JobRecord.status = Option.some "completed"
  ∧ (dictGet (runOps collisionOps3 emptyState).training_jobs "training_100").map
        JobRecord.status = Option.some "training" :=
  ⟨rfl, rfl⟩

/-- A regression-training outcome used by the C4 witness. -/
def regressionOutcome : TrainOutcome :=
  ⟨"regression", .randomForestRegressor, ["mse", "rmse"], 1 / 5, 42⟩

/-- C4 witness: on a concrete one-job run, completing the job writes status
"completed" and keeps the creation's start_time "t0". -/
theorem C4_job_status_lifecycle_witness :
    dictGet (applyServiceOp (.completeJob "j" "t1" ["mse", "rmse"] "regression" regressionOutcome)
        (applyServiceOp (.createJob "j" "t0") emptyState)).training_jobs "j" =
      Option.some ⟨"completed", "t0", Option.some "t1",
        Option.some (String.intercalate "," ["mse", "rmse"]), Option.some "regression",
        Option.none⟩ :=
  C4_job_status_lifecycle.2.1 (applyServiceOp (.createJob "j" "t0") emptyState) "j"
    ⟨"training", "t0", Option.none, Option.none, Option.none, Option.none⟩
    "t1" ["mse", "rmse"] "regression" regressionOutcome rfl

/-- A dictionary assignment never drops a present key. -/
theorem dictGet_dictSet_isSome {β : Type} (m : List (String × β)) (k k2 : String) (v : β)
    (h : (dictGet m k2).isSome = true) : (dictGet (dictSet m k v) k2).isSome = true := by
  rw [dictGet_dictSet]
  split
  · rfl
  · exact h

/-- One step never drops a key of any of the three dictionaries. -/
theorem applyServiceOp_grow (st : ServiceState) (op : ServiceOp) (k : String) :
    ((dictGet st.analysis_results k).isSome = true →
      (dictGet (applyServiceOp op st).analysis_results k).isSome = true)
  ∧ ((dictGet st.training_jobs k).isSome = true →
      (dictGet (applyServiceOp op st).training_jobs k).isSome = true)
  ∧ ((dictGet st.models_cache k).isSome = true →
      (dictGet (applyServiceOp op st).models_cache k).isSome = true) := by
  cases op with
  | storeAnalysis key v =>
    exact ⟨fun h => dictGet_dictSet_isSome _ _ _ _ h, id, id⟩
  | createJob key t0 =>
    exact ⟨id, fun h => dictGet_dictSet_isSome _ _ _ _ h, id⟩
  | completeJob key e m mt res =>
    refine ⟨?_, ?_, ?_⟩ <;> simp only [applyServiceOp]
    · split
      · exact id
      · exact id
    · split
      · exact fun h => dictGet_dictSet_isSome _ _ _ _ h
      · exact id
    · split
      · exact fun h => dictGet_dictSet_isSome _ _ _ _ h
      · exact fun h => dictGet_dictSet_isSome _ _ _ _ h
  | failJob key e err =>
    refine ⟨?_, ?_, ?_⟩ <;> simp only [applyServiceOp]
    · split
      · exact id
      · exact id
    · split
      · exact fun h => dictGet_dictSet_isSome _ _ _ _ h
      · exact id
    · split
      · exact id
      · exact id
  | getTrainingStatus key => exact ⟨id, id, id⟩
  | wsTrainingStatus key => exact ⟨id, id, id⟩
  | healthCheck => exact ⟨id, id, id⟩

/-- A whole run never drops a key of any of the three dictionaries. -/
theorem runOps_grow (ops : List ServiceOp) : ∀ (st : ServiceState) (k : String),
    ((dictGet st.analysis_results k).isSome = true →
      (dictGet (runOps ops st).analysis_results k).isSome = true)
  ∧ ((dictGet st.training_jobs k).isSome = true →
      (dictGet (runOps ops st).training_jobs k).isSome = true)
  ∧ ((dictGet st.models_cache k).isSome = true →
      (dictGet (runOps ops st).models_cache k).isSome = true) := by
  induction ops with
  | nil => exact fun st k => ⟨id, id, id⟩
  | cons op ops ih =>
    intro st k
    rw [runOps, List.foldl_cons]
    have hstep := applyServiceOp_grow st op k
    have hrest := ih (applyServiceOp op st) k
    exact ⟨fun h => hrest.1 (hstep.1 h), fun h => hrest.2.1 (hstep.2.1 h),
      fun h => hrest.2.2 (hstep.2.2 h)⟩

/-- C7. The three module-level dictionaries only grow: every key present
before a handler step, a background-task step or a read-only path remains
present after it, and hence after any whole run. -/
theorem C7_maps_only_grow (st : ServiceState) (op : ServiceOp) (k : String) :
    ((dictGet st.analysis_results k).isSome = true →
      (dictGet (applyServiceOp op st).analysis_results k).isSome = true)
  ∧ ((dictGet st.training_jobs k).isSome = true →
      (dictGet (applyServiceOp op st).training_jobs k).isSome = true)
  ∧ ((dictGet st.models_cache k).isSome = true →
      (dictGet (applyServiceOp op st).models_cache k).isSome = true)
  ∧ (∀ ops, (dictGet st.analysis_results k).isSome = true →
      (dictGet (runOps ops st).analysis_results k).isSome = true)
  ∧ (∀ ops, (dictGet st.training_jobs k).isSome = true →
      (dictGet (runOps ops st).training_jobs k).isSome = true)
  ∧ (∀ ops, (dictGet st.models_cache k).isSome = true →
      (dictGet (runOps ops st).models_cache k).isSome = true) :=
  ⟨(applyServiceOp_grow st op k).1, (applyServiceOp_grow st op k).2.1,
    (applyServiceOp_grow st op k).2.2,
    fun ops => (runOps_grow ops st k).1, fun ops => (runOps_grow ops st k).2.1,
    fun ops => (runOps_grow ops st k).2.2⟩

/-- C7 witness: a key created by one request survives a later, different
request's step. -/
theorem C7_maps_only_grow_witness :
    (dictGet (applyServiceOp (.createJob "training_2" "t2")
        (applyServiceOp (.createJob "training_1" "t1") emptyState)).training_jobs
      "training_1").isSome = true :=
  (C7_maps_only_grow (applyServiceOp (.createJob "training_1" "t1") emptyState)
    (.createJob "training_2" "t2") "training_1").2.1 rfl

/-- C6. Cleaning a dataframe column: in an int64/float64 column every NaN
becomes the column's median (when the column has one) and every other value
is unchanged; in any other column every NaN becomes the mode of the
column's non-null values — of whatever type, `mode()` counting every
non-null value — with "Unknown" when the mode series is empty, and every
other value is unchanged; and the data processor's "clean" operation
applies exactly this to every column. -/
theorem C6_clean_fills_median_and_mode (c : DataColumn) (m : Rat) :
    ((c.dtype = "int64" ∨ c.dtype = "float64") → median (colNums c.cells) = Option.some m →
      (cleanColumn c).cells =
        c.cells.map (fun v => if v = PyVal.null then PyVal.num m else v))
  ∧ (¬(c.dtype = "int64" ∨ c.dtype = "float64") →
      (cleanColumn c).cells =
        c.cells.map (fun v =>
          if v = PyVal.null then
            (modeFirst (colNonNull c.cells)).getD (PyVal.str "Unknown")
          else v))
  ∧ (∀ df : List DataColumn, applyOperation df "clean" = df.map cleanColumn) := by
  refine ⟨?_, ?_, fun df => rfl⟩
  · intro hdt hm
    unfold cleanColumn
    rw [if_pos hdt, hm]
    apply List.map_congr_left
    intro v hv
    cases v <;> simp
  · intro hdt
    unfold cleanColumn
    rw [if_neg hdt]
    apply List.map_congr_left
    intro v hv
    cases v <;> simp

/-- A float64 column with one missing value, median 3. -/
def numColumnExample : DataColumn := ⟨"a", "float64", [.num 1, .null, .num 7, .num 3]⟩

/-- An object column with one missing value, mode "x". -/
def objColumnExample : DataColumn := ⟨"b", "object", [.str "x", .null, .str "x", .str "y"]⟩

/-- A mixed object column ([1, 1, "x", None]): its mode is the number 1,
because `mode()` counts all non-null values, not only the strings. -/
def mixedColumnExample : DataColumn := ⟨"c", "object", [.num 1, .num 1, .str "x", .null]⟩

/-- C6 witness: the two fill rules at concrete columns, including a mixed
object column whose mode is a number. -/
theorem C6_clean_fills_witness :
    (cleanColumn numColumnExample).cells =
      numColumnExample.cells.map (fun v => if v = PyVal.null then PyVal.num 3 else v)
  ∧ (cleanColumn objColumnExample).cells =
      objColumnExample.cells.map (fun v =>
        if v = PyVal.null then
          (modeFirst (colNonNull objColumnExample.cells)).getD (PyVal.str "Unknown")
        else v)
  ∧ (cleanColumn mixedColumnExample).cells =
      mixedColumnExample.cells.map (fun v =>
        if v = PyVal.null then
          (modeFirst (colNonNull mixedColumnExample.cells)).getD (PyVal.str "Unknown")
        else v)
  ∧ modeFirst (colNonNull objColumnExample.cells) = Option.some (PyVal.str "x")
  ∧ modeFirst (colNonNull mixedColumnExample.cells) = Option.some (PyVal.num 1) :=
  ⟨(C6_clean_fills_median_and_mode numColumnExample 3).1 (Or.inr rfl) (by decide),
   (C6_clean_fills_median_and_mode objColumnExample 0).2.1 (by decide),
   (C6_clean_fills_median_and_mode mixedColumnExample 0).2.1 (by decide),
   by decide, by decide⟩

/-- The claim's reading of the quality score: start at 100, subtract 2 per
complexity point above 10 and 10 per security issue, add 10 times the
documented fraction, clamp to [0, 100]. -/
def qualityScoreFormula (complexity nIssues documented total : Nat) : Rat :=
  min 100 (max 0
    (100 - 2 * max ((complexity : Rat) - 10) 0 - 10 * (nIssues : Rat)
      + 10 * ((documented : Rat) / (total : Rat))))

/-- The code's score computation matches the claim's formula and is clamped
into [0, 100]. -/
theorem quality_score_spec (complexity : Nat) (issues : List SecurityIssue)
    (functions : List FunctionInfo) :
    0 ≤ _calculate_quality_score complexity issues functions
  ∧ _calculate_quality_score complexity issues functions ≤ 100
  ∧ _calculate_quality_score complexity issues functions =
      qualityScoreFormula complexity issues.length
        ((functions.filter (fun f => f.docstring.getD "" != "")).length) functions.length := by
  refine ⟨le_max_left 0 _, max_le (by norm_num) (min_le_left _ _), ?_⟩
  unfold _calculate_quality_score qualityScoreFormula
  dsimp only
  have hdistrib : ∀ x : Rat, max 0 (min 100 x) = min 100 (max 0 x) := by
    intro x
    rw [max_min_distrib_left]
    norm_num
  have hmaxpos : 10 < complexity → max ((complexity : Rat) - 10) 0 = (complexity : Rat) - 10 := by
    intro h1
    apply max_eq_left
    have : (10 : Rat) ≤ (complexity : Rat) := by exact_mod_cast h1.le
    linarith
  have hmaxneg : ¬ 10 < complexity → max ((complexity : Rat) - 10) 0 = 0 := by
    intro h1
    apply max_eq_right
    have : (complexity : Rat) ≤ 10 := by exact_mod_cast Nat.not_lt.mp h1
    linarith
  by_cases h2 : functions.length ≠ 0
  · rw [if_pos h2]
    by_cases h1 : 10 < complexity
    · rw [if_pos h1, hdistrib, hmaxpos h1]
      congr 2
      ring
    · rw [if_neg h1, hdistrib, hmaxneg h1]
      congr 2
      ring
  · rw [if_neg h2]
    have hlen : (functions.length : Rat) = 0 := by
      exact_mod_cast Nat.eq_zero_of_not_pos (by omega)
    by_cases h1 : 10 < complexity
    · rw [if_pos h1, hdistrib, hmaxpos h1, hlen]
      rw [div_zero, mul_zero]
      congr 2
      ring
    · rw [if_neg h1, hdistrib, hmaxneg h1, hlen]
      rw [div_zero, mul_zero]
      congr 2
      ring

/-- C10. For every parse tree and raw text, the analyzer's
`code_quality_score` is in [0, 100] and equals the clamp of
100 − 2·(complexity above 10) − 10·(number of security issues)
+ 10·(documented-function fraction), a function with a `None` or empty
docstring counting as undocumented. -/
theorem C10_quality_score_bounds (t : PyTree) (code : String) :
    0 ≤ (buildAnalysis t code).code_quality_score
  ∧ (buildAnalysis t code).code_quality_score ≤ 100
  ∧ (buildAnalysis t code).code_quality_score =
      qualityScoreFormula (_calculate_complexity t) (_check_security_issues code).length
        (((_extract_functions t).filter (fun f => f.docstring.getD "" != "")).length)
        (_extract_functions t).length
  ∧ analyze_python_code (Except.ok t) code = AnalysisResult.ok (buildAnalysis t code) := by
  have h := quality_score_spec (_calculate_complexity t) (_check_security_issues code)
    (_extract_functions t)
  exact ⟨h.1, h.2.1, h.2.2, rfl⟩

end ECodeML
